import Mathlib

set_option maxRecDepth 10000

/-!
Shallow embedding of the configuration-migration engine in
src/preferences/upgrade.cpp (Upgrade::versionUpgrade and the two
anonymous-namespace value remappers), together with the Qt helpers it
relies on (QString::startsWith, QString::toInt, QVersionNumber).

The config store is modelled as a finite map from (section, key) pairs to
string values; external collaborators (the prompt dialogs, the database
schema initialization, the directory registration, the file-copy outcomes,
the probed legacy config locations, and the running version string) are
modelled as an explicit environment record, since the source only branches
on their boolean/string outcomes.
-/

namespace Mixxx

/-! ### Qt string helpers -/

/-- Prefix test on character lists; the computational core of
QString::startsWith. -/
def listIsPrefixOf : List Char → List Char → Bool
  | a :: as, b :: bs => (a == b) && listIsPrefixOf as bs
  | [], _ => true
  | _, [] => false

/-- QString::startsWith(p): true when p is a prefix of s. -/
def qStartsWith (s p : String) : Bool := listIsPrefixOf p.data s.data

/-- Value and remainder of the longest leading run of decimal digits. -/
def digitsVal (acc : Nat) : List Char → Nat × List Char
  | c :: cs => if c.isDigit then digitsVal (acc * 10 + (c.toNat - 48)) cs else (acc, c :: cs)
  | [] => (acc, [])

/-- Leading number of a version-segment list: none when the list does not
begin with a digit (QVersionNumber::fromString stops there). -/
def takeLeadingDigits : List Char → Option (Nat × List Char)
  | [] => none
  | c :: cs => if c.isDigit then some (digitsVal 0 (c :: cs)) else none

/-- Fueled worker for QVersionNumber::fromString: read a number, then if a
dot follows continue after it, otherwise stop.  The fuel is always at least
the length of the list plus one, which the recursion can never exhaust. -/
def vnParseAux : Nat → List Char → List Nat
  | 0, _ => []
  | fuel + 1, cs =>
    match takeLeadingDigits cs with
    | none => []
    | some (n, rest) =>
      match rest with
      | '.' :: rest2 => n :: vnParseAux fuel rest2
      | _ => [n]

/-- QVersionNumber::fromString: the dot-separated numeric segments that
prefix the string ("2.6.0-beta" gives [2, 6, 0], "" gives []). -/
def vnParse (s : String) : List Nat := vnParseAux (s.data.length + 1) s.data

/-- QVersionNumber::compare: lexicographic on segments, a longer segment
list comparing greater than its proper prefix. -/
def vnCompare : List Nat → List Nat → Ordering
  | [], [] => .eq
  | [], _ :: _ => .lt
  | _ :: _, [] => .gt
  | a :: as, b :: bs =>
    if a < b then .lt else if b < a then .gt else vnCompare as bs

/-- QVersionNumber operator<. -/
def vnLt (a b : List Nat) : Bool := vnCompare a b == Ordering.lt

/-- QVersionNumber operator>=, i.e. not operator<. -/
def vnGe (a b : List Nat) : Bool := !(vnCompare a b == Ordering.lt)

/-- Value of an all-digit character list read in base 10. -/
def natOfDigits (cs : List Char) : Nat := cs.foldl (fun a c => a * 10 + (c.toNat - 48)) 0

/-- QString::toInt as used by ConfigObject when reading integer values:
the whole string must be an optionally-minus-signed decimal numeral,
anything else yields 0. -/
def qStringToInt (s : String) : Int :=
  match s.data with
  | '-' :: cs => if cs ≠ [] ∧ cs.all Char.isDigit then -(natOfDigits cs : Int) else 0
  | cs => if cs ≠ [] ∧ cs.all Char.isDigit then (natOfDigits cs : Int) else 0

/-! ### The config store

ConfigObject<ConfigValue> is a persistent (section, key) -> string map;
versionUpgrade only uses getValueString / getValue<int> / set on it. -/

/-- A (section, key) pair, e.g. ("[Config]", "Version"). -/
abbrev CfgKey := String × String

/-- The in-memory config store: a map from (section, key) to value. -/
def Store := CfgKey → Option String

/-- ConfigObject::set: replace or insert one value. -/
def Store.set (s : Store) (k : CfgKey) (v : String) : Store :=
  fun k2 => if k2 = k then some v else s k2

/-- ConfigObject::getValueString: empty string when the key is absent. -/
def Store.getString (s : Store) (k : CfgKey) : String := (s k).getD ""

/-- ConfigObject::getValue<int> with a default: the default when the key is
absent, QString::toInt of the stored text otherwise. -/
def Store.getInt (s : Store) (k : CfgKey) (d : Int) : Int :=
  match s k with
  | none => d
  | some str => qStringToInt str

/-- A store built from an association list (for concrete examples). -/
def storeOfList (l : List (CfgKey × String)) : Store :=
  fun k => (l.find? (fun p => p.1 == k)).map (fun p => p.2)

/-- The store with no entries at all. -/
def emptyStore : Store := fun _ => none

/-- "[Config]" / "Version": the version marker. -/
def versionKey : CfgKey := ("[Config]", "Version")

/-- "[Waveform]" / "VSync". -/
def vsyncKey : CfgKey := ("[Waveform]", "VSync")

/-- "[Waveform]" / "FrameRate". -/
def frameRateKey : CfgKey := ("[Waveform]", "FrameRate")

/-- "[Waveform]" / "WaveformType". -/
def waveformTypeKey : CfgKey := ("[Waveform]", "WaveformType")

/-- "[Waveform]" / "use_hardware_acceleration". -/
def hardwareAccelKey : CfgKey := ("[Waveform]", "use_hardware_acceleration")

/-- "[Waveform]" / "waveform_options". -/
def waveformOptionsKey : CfgKey := ("[Waveform]", "waveform_options")

/-- "[ReplayGain]" / "InitialReplayGainBoost". -/
def replayGainKey : CfgKey := ("[ReplayGain]", "InitialReplayGainBoost")

/-- Modelled from the spec: BeatDetectionSettings::setReanalyzeWhenSettingsChange
(preferences/beatdetectionsettings.h is not among the sources) persists the
beatgrid re-analysis choice under one dedicated config key; the spec only says
the 1.9/1.10 step must "persist that choice". -/
def reanalyzeKey : CfgKey := ("[BPM]", "ReanalyzeWhenSettingsChange")

/-- Modelled from the spec: a boolean config value is serialized as "1"/"0"
by ConfigObject (not among the sources). -/
def boolVal (b : Bool) : String := if b then "1" else "0"

/-! ### Waveform widget enums

waveform/widgets/waveformwidgettype.h, waveform/waveformwidgetfactory.h and
waveform/renderers/allshader/waveformrenderersignalbase.h are not among the
sources.  Their values are modelled from the spec's data model (type enum
over Simple/Filtered/HSV/Stacked/Empty/VSyncTest, backend enum with a
distinguished AllShader member, options bitmask over HighDetail and
SplitStereoSignal) together with the hard constraints the source imposes:
in upgradeToAllShaders the symbolic case labels WWT::Empty, WWT::Simple,
WWT::Filtered, WWT::HSV, WWT::VSyncTest, WWT::Stacked must all be distinct
from each other and from the literal historical codes
2,3,4,6,12,13,14,18,19,20,21,22,23,24,26 appearing in the same switch, and
the source's own comments tie each symbolic label to a historical
enumerator (Filtered = GLSLFilteredWaveform, VSyncTest = GLVSyncTest,
Stacked = GLSLRGBStackedWaveform), pinning the retained values of the
historical table. -/

namespace WaveformWidgetType

/-- Modelled from the spec: the Empty (no-signal) waveform type code. -/
def Empty : Int := 0

/-- Modelled from the spec: the Simple waveform type code (the retained
historical GLSimpleWaveform slot, distinct from the removed codes 3, 20). -/
def Simple : Int := 5

/-- Modelled from the spec: the Filtered type code (the retained historical
GLSLFilteredWaveform slot, per the source comment on its case label). -/
def Filtered : Int := 7

/-- Modelled from the spec: the HSV type code (retained historical slot,
distinct from the removed codes 14, 21). -/
def HSV : Int := 8

/-- Modelled from the spec: the VSyncTest type code (the retained historical
GLVSyncTest slot, per the source comment on its case label). -/
def VSyncTest : Int := 9

/-- Modelled from the spec: the Stacked type code (the retained historical
GLSLRGBStackedWaveform slot, per the source comment on its case label). -/
def Stacked : Int := 15

end WaveformWidgetType

namespace WaveformWidgetBackend

/-- Modelled from the spec: the backend code for "no waveform backend". -/
def NoBackend : Int := 0

/-- Modelled from the spec: the modern all-shader backend code, distinct
from the legacy backends. -/
def AllShader : Int := 3

end WaveformWidgetBackend

namespace WaveformRendererSignalBase

/-- Modelled from the spec: the empty options bitmask. -/
def OptionNone : Int := 0

/-- Modelled from the spec: the SplitStereoSignal option bit. -/
def SplitStereoSignal : Int := 1

/-- Modelled from the spec: the HighDetail option bit. -/
def HighDetail : Int := 2

/-- Modelled from the spec: the union of all currently defined option bits,
used to mask raw options read from the config. -/
def AllOptionsCombined : Int := 3

end WaveformRendererSignalBase

namespace WaveformWidgetFactory

/-- Modelled from the spec: WaveformWidgetFactory::defaultType() (its
definition is not among the sources).  The spec's example
"remap(rawType=3, rawBackend=AllShader, ...) gives type = Simple" combined
with the source fact that 3 is a removed code distinct from WWT::Simple
(both are case labels of one switch) forces the library default type to be
the Simple type; the spec's current-type enum has no RGB member. -/
def defaultType : Int := WaveformWidgetType.Simple

end WaveformWidgetFactory

/-- upgradeToAllShaders (upgrade.cpp lines 36-138): pure remap of the three
raw waveform config integers (type, backend, options) onto the all-shader
representation, reproducing the source's switch groups and fallthroughs
literally.  Returns (type, backend, options). -/
def upgradeToAllShaders (unsafeWaveformType unsafeWaveformBackend unsafeWaveformOption : Int) :
    Int × Int × Int :=
  if WaveformWidgetBackend.AllShader = unsafeWaveformBackend then
    let waveformOption := Int.land unsafeWaveformOption WaveformRendererSignalBase.AllOptionsCombined
    if unsafeWaveformType = WaveformWidgetType.Simple ∨
        unsafeWaveformType = WaveformWidgetType.Filtered ∨
        unsafeWaveformType = WaveformWidgetType.HSV ∨
        unsafeWaveformType = WaveformWidgetType.Stacked ∨
        unsafeWaveformType = WaveformWidgetType.Empty then
      (unsafeWaveformType, WaveformWidgetBackend.AllShader, waveformOption)
    else
      (WaveformWidgetFactory.defaultType, WaveformWidgetBackend.AllShader, waveformOption)
  else
    -- legacy/other backend: options reset, backend retargeted to AllShader,
    -- the type classified through the historical table (with fallthroughs)
    let t := unsafeWaveformType
    if t = WaveformWidgetType.Empty then
      (WaveformWidgetType.Empty, WaveformWidgetBackend.NoBackend,
        WaveformRendererSignalBase.OptionNone)
    else if t = WaveformWidgetType.VSyncTest ∨ t = 13 then
      (WaveformWidgetType.VSyncTest, WaveformWidgetBackend.NoBackend,
        WaveformRendererSignalBase.OptionNone)
    else if t = 3 ∨ t = 20 ∨ t = WaveformWidgetType.Simple then
      (WaveformWidgetType.Simple, WaveformWidgetBackend.AllShader,
        WaveformRendererSignalBase.OptionNone)
    else if t = WaveformWidgetType.Filtered ∨ t = 22 then
      -- HighDetail set, then fallthrough into the plain filtered group
      (WaveformWidgetType.Filtered, WaveformWidgetBackend.AllShader,
        WaveformRendererSignalBase.HighDetail)
    else if t = 2 ∨ t = 4 ∨ t = 6 ∨ t = 19 then
      (WaveformWidgetType.Filtered, WaveformWidgetBackend.AllShader,
        WaveformRendererSignalBase.OptionNone)
    else if t = 14 ∨ t = 21 ∨ t = WaveformWidgetType.HSV then
      (WaveformWidgetType.HSV, WaveformWidgetBackend.AllShader,
        WaveformRendererSignalBase.OptionNone)
    else if t = 24 ∨ t = WaveformWidgetType.Stacked then
      -- HighDetail set, then fallthrough onto Stacked
      (WaveformWidgetType.Stacked, WaveformWidgetBackend.AllShader,
        WaveformRendererSignalBase.HighDetail)
    else if t = 26 then
      (WaveformWidgetType.Stacked, WaveformWidgetBackend.AllShader,
        WaveformRendererSignalBase.OptionNone)
    else if t = 18 then
      -- RGB family: SplitStereoSignal for 18, then fallthrough to default
      (WaveformWidgetFactory.defaultType, WaveformWidgetBackend.AllShader,
        WaveformRendererSignalBase.SplitStereoSignal)
    else if t = 23 ∨ t = 12 then
      -- RGB family: HighDetail for 23 and 12, then fallthrough to default
      (WaveformWidgetFactory.defaultType, WaveformWidgetBackend.AllShader,
        WaveformRendererSignalBase.HighDetail)
    else
      (WaveformWidgetFactory.defaultType, WaveformWidgetBackend.AllShader,
        WaveformRendererSignalBase.OptionNone)

/-! ### VSync modes -/

/-- VSyncThread::VSyncMode.  The enumerator values are modelled from the
spec (waveform/vsyncthread.h is not among the sources): Default first, the
three deprecated synchronization primitives, the still-supported Free,
Timer and PLL modes, and the Count sentinel last, in the source's switch
order. -/
inductive VSyncMode where
  | Default
  | MesaVblankMode1Deprecated
  | SgiVideoSyncDeprecated
  | OmlSyncControlDeprecated
  | Free
  | Timer
  | Pll
  | Count
  deriving DecidableEq

/-- Modelled from the spec: the integer value of each VSyncThread::VSyncMode
enumerator (consecutive from 0 in declaration order). -/
def VSyncMode.toInt : VSyncMode → Int
  | .Default => 0
  | .MesaVblankMode1Deprecated => 1
  | .SgiVideoSyncDeprecated => 2
  | .OmlSyncControlDeprecated => 3
  | .Free => 4
  | .Timer => 5
  | .Pll => 6
  | .Count => 7

/-- upgradeDeprecatedVSyncModes (upgrade.cpp lines 140-164): remap a raw
vsync config integer onto the surviving modes.  The guard reproduces the
source's (configVSyncMode >= 0 || configVSyncMode <= ST_COUNT) literally;
a raw value matching no case label falls past the switch to the final
return of ST_DEFAULT. -/
def upgradeDeprecatedVSyncModes (configVSyncMode : Int) : VSyncMode :=
  if 0 ≤ configVSyncMode ∨ configVSyncMode ≤ VSyncMode.Count.toInt then
    if configVSyncMode = VSyncMode.Default.toInt then .Default
    else if configVSyncMode = VSyncMode.MesaVblankMode1Deprecated.toInt then .Default
    else if configVSyncMode = VSyncMode.SgiVideoSyncDeprecated.toInt then .Default
    else if configVSyncMode = VSyncMode.OmlSyncControlDeprecated.toInt then .Default
    else if configVSyncMode = VSyncMode.Free.toInt then .Free
    else if configVSyncMode = VSyncMode.Timer.toInt then .Timer
    else if configVSyncMode = VSyncMode.Pll.toInt then .Pll
    else if configVSyncMode = VSyncMode.Count.toInt then .Default
    else .Default
  else .Default

/-! ### The migration ladder -/

/-- Outcomes of all external collaborators versionUpgrade branches on:
the injected running version string, the alternate legacy config location
probed when the version field is empty (none when no legacy file is found),
the overall success of the 1.9/1.10 mapping-file copies, the two human
prompt answers, and the 1.11 database collaborator results. -/
structure Env where
  runningVersion : String
  legacyConfig : Option Store
  copyMappingsOk : Bool
  reanalyzeAnswer : Bool
  pooling : Bool
  initSchemaOk : Bool
  addDirOk : Bool
  rescanAnswer : Bool

/-- The state threaded through the ladder: the local configVersion string,
the store, and the m_bRescanLibrary member flag. -/
structure LadderState where
  version : String
  store : Store
  rescanLibrary : Bool

/-- What versionUpgrade hands back: the (in-memory) store plus the
m_bFirstRun and m_bRescanLibrary member flags. -/
structure UpgradeResult where
  config : Store
  firstRun : Bool
  rescanLibrary : Bool

/-- Ladder step (upgrade.cpp lines 405-411): any "1.7" prefix version
advances to 1.8.0 with no data change. -/
def step_1_7 (st : LadderState) : LadderState :=
  if qStartsWith st.version "1.7" then
    { st with version := "1.8.0", store := st.store.set versionKey "1.8.0" }
  else st

/-- Ladder step (lines 413-419): the 1.8.0~beta prefixes advance to 1.8.0. -/
def step_1_8_beta (st : LadderState) : LadderState :=
  if qStartsWith st.version "1.8.0~beta1" || qStartsWith st.version "1.8.0~beta2" then
    { st with version := "1.8.0", store := st.store.set versionKey "1.8.0" }
  else st

/-- Ladder step (lines 420-470): "1.8" or "1.9.0beta1" prefixes advance to
1.9.0.  The OS X-only directory relocation in this block moves files on
disk and reloads the same logical store; it has no effect on the store's
key/value content modelled here. -/
def step_1_8 (st : LadderState) : LadderState :=
  if qStartsWith st.version "1.8" || qStartsWith st.version "1.9.0beta1" then
    { st with version := "1.9.0", store := st.store.set versionKey "1.9.0" }
  else st

/-- Ladder step (lines 471-515): "1.9"/"1.10" prefixes copy the legacy
mapping files (outcome env.copyMappingsOk), persist the beatgrid
re-analysis prompt answer, and advance to 1.11.0 only when every copy
succeeded. -/
def step_1_9_1_10 (env : Env) (st : LadderState) : LadderState :=
  if qStartsWith st.version "1.9" || qStartsWith st.version "1.10" then
    if env.copyMappingsOk then
      { st with
        version := "1.11.0"
        store := (st.store.set reanalyzeKey (boolVal env.reanalyzeAnswer)).set
          versionKey "1.11.0" }
    else
      { st with store := st.store.set reanalyzeKey (boolVal env.reanalyzeAnswer) }
  else st

/-- Ladder step (lines 517-577): "1.11" prefixes run the database schema
initialization and directory registration (successful only when the
connection pools, the schema initializes and addDirectory returns Ok),
record the library-rescan prompt answer in m_bRescanLibrary, rescale
InitialReplayGainBoost to max(-6, old - 6), and advance to 1.12.0 only
when successful. -/
def step_1_11 (env : Env) (st : LadderState) : LadderState :=
  if qStartsWith st.version "1.11" then
    -- successful := pooling && schema init && addDirectory == Ok; the
    -- replay-gain rescale happens before the success test, the version
    -- advance only under it
    if env.pooling && env.initSchemaOk && env.addDirOk then
      { st with
        version := "1.12.0"
        rescanLibrary := env.rescanAnswer
        store := (st.store.set replayGainKey
            (toString (max (-6) (st.store.getInt replayGainKey 6 - 6)))).set
          versionKey "1.12.0" }
    else
      { st with
        rescanLibrary := env.rescanAnswer
        store := st.store.set replayGainKey
          (toString (max (-6) (st.store.getInt replayGainKey 6 - 6))) }
  else st

/-- Ladder step (lines 579-583): when the parsed version predates 2.4.0,
reset the frame rate to 60; the version marker is not touched. -/
def step_framerate (st : LadderState) : LadderState :=
  if vnLt (vnParse st.version) [2, 4, 0] then
    { st with store := st.store.set frameRateKey "60" }
  else st

/-- The gate of the waveform modernization step exactly as the source
writes it (lines 587-589). -/
def waveformUpgradeCond (running v : String) : Bool :=
  vnLt (vnParse v) [2, 6, 0] || (running != "2.6.0-beta" && qStartsWith v "2.6.0-")

/-- The same gate as the spec words it: the parsed stored version is
numerically below 2.6.0, or the stored version is an interim 2.6.0
pre-release while the running build is not exactly 2.6.0-beta. -/
def waveformUpgradeCondSpec (running v : String) : Bool :=
  vnLt (vnParse v) [2, 6, 0] || (qStartsWith v "2.6.0-" && running != "2.6.0-beta")

/-- Ladder step (lines 585-614): under waveformUpgradeCond, read the three
raw waveform integers, pass them through upgradeToAllShaders, write the
corrected triple back and advance to 2.6.0. -/
def step_waveform (env : Env) (st : LadderState) : LadderState :=
  if waveformUpgradeCond env.runningVersion st.version then
    let waveformType := st.store.getInt waveformTypeKey 0
    let waveformBackend := st.store.getInt hardwareAccelKey 0
    let waveformOption := st.store.getInt waveformOptionsKey 0
    let r := upgradeToAllShaders waveformType waveformBackend waveformOption
    let s2 := ((st.store.set waveformTypeKey (toString r.1)).set
        hardwareAccelKey (toString r.2.1)).set waveformOptionsKey (toString r.2.2)
    { st with version := "2.6.0", store := s2.set versionKey "2.6.0" }
  else st

/-- Terminal cleanup step (lines 619-624): once the version is numerically
at or above 2.6.0, stamp it to the exact running version string. -/
def step_clean (env : Env) (st : LadderState) : LadderState :=
  if vnGe (vnParse st.version) [2, 6, 0] then
    { st with
      version := env.runningVersion
      store := st.store.set versionKey env.runningVersion }
  else st

/-- The post-load part of versionUpgrade (lines 372-633): the unconditional
vsync-mode renormalization, the short-circuit when the version is already
current, and the ordered ladder followed by the terminal stamp. -/
def afterLoad (env : Env) (st0 : LadderState) : UpgradeResult :=
  let vsyncVal := toString (upgradeDeprecatedVSyncModes (st0.store.getInt vsyncKey 0)).toInt
  let st1 := { st0 with store := st0.store.set vsyncKey vsyncVal }
  if st1.version = env.runningVersion then
    { config := st1.store, firstRun := false, rescanLibrary := st1.rescanLibrary }
  else
    let st2 := step_1_7 st1
    let st3 := step_1_8_beta st2
    let st4 := step_1_8 st3
    let st5 := step_1_9_1_10 env st4
    let st6 := step_1_11 env st5
    let st7 := step_framerate st6
    let st8 := step_waveform env st7
    let st9 := step_clean env st8
    { config := st9.store, firstRun := false, rescanLibrary := st9.rescanLibrary }

/-- Upgrade::versionUpgrade from the loaded store on (lines 316-633).  The
pre-1.7.0 block (lines 171-304) only relocates files on disk before the
store is loaded, so the loaded store is the input here.  An empty version
field triggers the OS-specific probe for an alternate legacy config
(env.legacyConfig); when none is found this is a first run: the version is
stamped to the running version, m_bFirstRun is set, and the function
returns immediately. -/
def versionUpgrade (env : Env) (config0 : Store) : UpgradeResult :=
  let configVersion := config0.getString versionKey
  if configVersion = "" then
    match env.legacyConfig with
    | some legacy =>
        afterLoad env
          { version := legacy.getString versionKey
            store := legacy
            rescanLibrary := false }
    | none =>
        { config := config0.set versionKey env.runningVersion
          firstRun := true
          rescanLibrary := false }
  else
    afterLoad env { version := configVersion, store := config0, rescanLibrary := false }

/-- Modelled from the spec: the spec's ConfigStore lifecycle says the store
is "loaded from disk, ... mutated in place by the ladder, and persisted by
the caller" and its external interface separates set(section,key,value)
from save(); ConfigObject::set (preferences/usersettings.h, not among the
sources) only updates the in-memory map, and the source of versionUpgrade
contains no call to save().  The on-disk image of the store therefore
stays exactly what it was when versionUpgrade started, at every point
during the ladder and when it returns. -/
def diskImageDuringVersionUpgrade (disk0 : Store) : Store := disk0

/-! ### Concrete stores and environments for the examples -/

/-- Running version 2.6.0, no legacy config found, every collaborator
succeeding, both prompts answered no. -/
def envA : Env :=
  { runningVersion := "2.6.0", legacyConfig := none, copyMappingsOk := true,
    reanalyzeAnswer := false, pooling := true, initSchemaOk := true,
    addDirOk := true, rescanAnswer := false }

/-- As envA but the directory registration fails and the rescan prompt is
answered yes. -/
def envFail : Env := { envA with addDirOk := false, rescanAnswer := true }

/-- As envA but the mapping-file copies fail. -/
def envCopyFail : Env := { envA with copyMappingsOk := false }

/-- As envA but the running build is itself 2.6.0-beta. -/
def envBeta : Env := { envA with runningVersion := "2.6.0-beta" }

/-- A store at version 1.11.0 with a replay-gain boost of 2. -/
def store111 : Store := storeOfList [(versionKey, "1.11.0"), (replayGainKey, "2")]

/-- A store at version 1.9.2. -/
def store19 : Store := storeOfList [(versionKey, "1.9.2")]

/-- A store at version 1.7.0. -/
def store17 : Store := storeOfList [(versionKey, "1.7.0")]

/-- A store at the interim pre-release 2.6.0-beta holding the removed raw
waveform type code 12. -/
def storeBeta : Store := storeOfList [(versionKey, "2.6.0-beta"), (waveformTypeKey, "12")]

/-! ### Helper lemmas -/

theorem Store.set_self (s : Store) (k : CfgKey) (v : String) : (s.set k v) k = some v := by
  simp [Store.set]

theorem Store.set_other (s : Store) (k k2 : CfgKey) (v : String) (h : k2 ≠ k) :
    (s.set k v) k2 = s k2 := by
  simp [Store.set, h]

theorem listIsPrefixOf_iff_append (p l : List Char) :
    listIsPrefixOf p l = true ↔ ∃ r, l = p ++ r := by
  induction p generalizing l with
  | nil => simp [listIsPrefixOf]
  | cons a as ih =>
    cases l with
    | nil => simp [listIsPrefixOf]
    | cons b bs =>
      simp only [listIsPrefixOf, Bool.and_eq_true, beq_iff_eq, ih, List.cons_append,
        List.cons.injEq]
      constructor
      · rintro ⟨h1, r, h2⟩
        exact ⟨r, h1.symm, h2⟩
      · rintro ⟨r, h1, h2⟩
        exact ⟨h1.symm, r, h2⟩

theorem qStartsWith_shape (v p : String) (h : qStartsWith v p = true) :
    ∃ r, v.data = p.data ++ r :=
  (listIsPrefixOf_iff_append _ _).1 h

theorem getString_eq_some (s : Store) (k : CfgKey) (h : s.getString k ≠ "") :
    s k = some (s.getString k) := by
  unfold Store.getString at h ⊢
  cases hsk : s k with
  | none => rw [hsk] at h; simp at h
  | some v => rfl

/-! ### Which keys each ladder step can touch -/

theorem step_1_7_pres (st : LadderState) (k : CfgKey) (h : k ≠ versionKey) :
    (step_1_7 st).store k = st.store k := by
  unfold step_1_7; split
  · simp [Store.set, h]
  · rfl

theorem step_1_8_beta_pres (st : LadderState) (k : CfgKey) (h : k ≠ versionKey) :
    (step_1_8_beta st).store k = st.store k := by
  unfold step_1_8_beta; split
  · simp [Store.set, h]
  · rfl

theorem step_1_8_pres (st : LadderState) (k : CfgKey) (h : k ≠ versionKey) :
    (step_1_8 st).store k = st.store k := by
  unfold step_1_8; split
  · simp [Store.set, h]
  · rfl

theorem step_1_9_1_10_pres (env : Env) (st : LadderState) (k : CfgKey)
    (h1 : k ≠ versionKey) (h2 : k ≠ reanalyzeKey) :
    (step_1_9_1_10 env st).store k = st.store k := by
  unfold step_1_9_1_10; split
  · split
    · simp [Store.set, h1, h2]
    · simp [Store.set, h2]
  · rfl

theorem step_1_11_pres (env : Env) (st : LadderState) (k : CfgKey)
    (h1 : k ≠ versionKey) (h2 : k ≠ replayGainKey) :
    (step_1_11 env st).store k = st.store k := by
  unfold step_1_11; split
  · split
    · simp [Store.set, h1, h2]
    · simp [Store.set, h2]
  · rfl

theorem step_framerate_pres (st : LadderState) (k : CfgKey) (h : k ≠ frameRateKey) :
    (step_framerate st).store k = st.store k := by
  unfold step_framerate; split
  · simp [Store.set, h]
  · rfl

theorem step_waveform_pres (env : Env) (st : LadderState) (k : CfgKey)
    (h1 : k ≠ versionKey) (h2 : k ≠ waveformTypeKey) (h3 : k ≠ hardwareAccelKey)
    (h4 : k ≠ waveformOptionsKey) :
    (step_waveform env st).store k = st.store k := by
  unfold step_waveform; split
  · simp [Store.set, h1, h2, h3, h4]
  · rfl

theorem step_clean_pres (env : Env) (st : LadderState) (k : CfgKey)
    (h : k ≠ versionKey) :
    (step_clean env st).store k = st.store k := by
  unfold step_clean; split
  · simp [Store.set, h]
  · rfl

/-! ### The rescan flag and the version field across steps -/

theorem step_1_7_rescan (st : LadderState) :
    (step_1_7 st).rescanLibrary = st.rescanLibrary := by
  unfold step_1_7; split <;> rfl

theorem step_1_8_beta_rescan (st : LadderState) :
    (step_1_8_beta st).rescanLibrary = st.rescanLibrary := by
  unfold step_1_8_beta; split <;> rfl

theorem step_1_8_rescan (st : LadderState) :
    (step_1_8 st).rescanLibrary = st.rescanLibrary := by
  unfold step_1_8; split <;> rfl

theorem step_1_9_1_10_rescan (env : Env) (st : LadderState) :
    (step_1_9_1_10 env st).rescanLibrary = st.rescanLibrary := by
  unfold step_1_9_1_10; split
  · split <;> rfl
  · rfl

theorem step_framerate_rescan (st : LadderState) :
    (step_framerate st).rescanLibrary = st.rescanLibrary := by
  unfold step_framerate; split <;> rfl

theorem step_waveform_rescan (env : Env) (st : LadderState) :
    (step_waveform env st).rescanLibrary = st.rescanLibrary := by
  unfold step_waveform; split <;> rfl

theorem step_clean_rescan (env : Env) (st : LadderState) :
    (step_clean env st).rescanLibrary = st.rescanLibrary := by
  unfold step_clean; split <;> rfl

theorem step_framerate_version (st : LadderState) :
    (step_framerate st).version = st.version := by
  unfold step_framerate; split <;> rfl

/-! ### Gate-false identities -/

theorem step_1_7_id (st : LadderState) (h : qStartsWith st.version "1.7" = false) :
    step_1_7 st = st := by
  unfold step_1_7; rw [h]; rfl

theorem step_1_8_beta_id (st : LadderState)
    (h1 : qStartsWith st.version "1.8.0~beta1" = false)
    (h2 : qStartsWith st.version "1.8.0~beta2" = false) :
    step_1_8_beta st = st := by
  unfold step_1_8_beta; rw [h1, h2]; rfl

theorem step_1_8_id (st : LadderState)
    (h1 : qStartsWith st.version "1.8" = false)
    (h2 : qStartsWith st.version "1.9.0beta1" = false) :
    step_1_8 st = st := by
  unfold step_1_8; rw [h1, h2]; rfl

theorem step_1_9_1_10_id (env : Env) (st : LadderState)
    (h1 : qStartsWith st.version "1.9" = false)
    (h2 : qStartsWith st.version "1.10" = false) :
    step_1_9_1_10 env st = st := by
  unfold step_1_9_1_10; rw [h1, h2]; rfl

theorem step_1_11_id (env : Env) (st : LadderState)
    (h : qStartsWith st.version "1.11" = false) :
    step_1_11 env st = st := by
  unfold step_1_11; rw [h]; rfl

/-! ### The version marker always ends at the running version -/

theorem step_1_7_inv (st : LadderState) (h : st.store versionKey = some st.version) :
    (step_1_7 st).store versionKey = some (step_1_7 st).version := by
  unfold step_1_7; split
  · simp [Store.set]
  · exact h

theorem step_1_8_beta_inv (st : LadderState) (h : st.store versionKey = some st.version) :
    (step_1_8_beta st).store versionKey = some (step_1_8_beta st).version := by
  unfold step_1_8_beta; split
  · simp [Store.set]
  · exact h

theorem step_1_8_inv (st : LadderState) (h : st.store versionKey = some st.version) :
    (step_1_8 st).store versionKey = some (step_1_8 st).version := by
  unfold step_1_8; split
  · simp [Store.set]
  · exact h

theorem step_1_9_1_10_inv (env : Env) (st : LadderState)
    (h : st.store versionKey = some st.version) :
    (step_1_9_1_10 env st).store versionKey = some (step_1_9_1_10 env st).version := by
  unfold step_1_9_1_10; split
  · split
    · simp [Store.set]
    · simpa [Store.set, versionKey, reanalyzeKey] using h
  · exact h

theorem step_1_11_inv (env : Env) (st : LadderState)
    (h : st.store versionKey = some st.version) :
    (step_1_11 env st).store versionKey = some (step_1_11 env st).version := by
  unfold step_1_11; split
  · split
    · simp [Store.set]
    · simpa [Store.set, versionKey, replayGainKey] using h
  · exact h

theorem step_framerate_inv (st : LadderState)
    (h : st.store versionKey = some st.version) :
    (step_framerate st).store versionKey = some (step_framerate st).version := by
  unfold step_framerate; split
  · simpa [Store.set, versionKey, frameRateKey] using h
  · exact h

theorem step_waveform_inv (env : Env) (st : LadderState)
    (h : st.store versionKey = some st.version) :
    (step_waveform env st).store versionKey = some (step_waveform env st).version := by
  unfold step_waveform; split
  · simp [Store.set]
  · exact h

theorem step_clean_inv (env : Env) (st : LadderState)
    (h : st.store versionKey = some st.version) :
    (step_clean env st).store versionKey = some (step_clean env st).version := by
  unfold step_clean; split
  · simp [Store.set]
  · exact h

/-- After the waveform step the version always parses at or above 2.6.0, so
the terminal cleanup always stamps the exact running version. -/
theorem step_clean_after_waveform_version (env : Env) (st : LadderState) :
    (step_clean env (step_waveform env st)).version = env.runningVersion := by
  unfold step_waveform; split
  · have hge : vnGe (vnParse "2.6.0") [2, 6, 0] = true := by decide
    unfold step_clean
    rw [if_pos hge]
  · rename_i hcond
    rw [Bool.not_eq_true] at hcond
    unfold waveformUpgradeCond at hcond
    rcases Bool.or_eq_false_iff.1 hcond with ⟨hlt, _⟩
    have hge : vnGe (vnParse st.version) [2, 6, 0] = true := by
      unfold vnGe
      unfold vnLt at hlt
      rw [hlt]
      rfl
    unfold step_clean
    rw [if_pos hge]

/-- A failed prefix test against the concrete head of a list stays failed
whatever the tail is. -/
theorem listIsPrefixOf_append_false (p d r : List Char)
    (h : listIsPrefixOf (p.take d.length) d = false) :
    listIsPrefixOf p (d ++ r) = false := by
  induction p generalizing d with
  | nil => simp [listIsPrefixOf] at h
  | cons a as ih =>
    cases d with
    | nil => simp [listIsPrefixOf] at h
    | cons b bs =>
      simp only [List.length_cons, List.take_succ_cons, listIsPrefixOf] at h
      show (a == b && listIsPrefixOf as (bs ++ r)) = false
      rcases Bool.and_eq_false_iff.1 h with hab | hrest
      · rw [hab, Bool.false_and]
      · rw [ih bs hrest, Bool.and_false]

/-- Unfolding versionUpgrade when the stored version field is nonempty. -/
theorem versionUpgrade_nonempty (env : Env) (s : Store)
    (hv : s.getString versionKey ≠ "") :
    versionUpgrade env s =
      afterLoad env
        { version := s.getString versionKey, store := s, rescanLibrary := false } := by
  show (if s.getString versionKey = "" then _ else _) = _
  rw [if_neg hv]

/-- The whole post-1.11 tail of the ladder always leaves the version marker
stamped to the running version. -/
theorem ladder_chain_versionKey (env : Env) (st : LadderState)
    (hinv : st.store versionKey = some st.version) :
    (step_clean env (step_waveform env (step_framerate (step_1_11 env
        (step_1_9_1_10 env (step_1_8 (step_1_8_beta (step_1_7 st)))))))).store
      versionKey = some env.runningVersion := by
  have i2 := step_1_7_inv st hinv
  have i3 := step_1_8_beta_inv _ i2
  have i4 := step_1_8_inv _ i3
  have i5 := step_1_9_1_10_inv env _ i4
  have i6 := step_1_11_inv env _ i5
  have i7 := step_framerate_inv _ i6
  have i8 := step_waveform_inv env _ i7
  have i9 := step_clean_inv env _ i8
  rw [step_clean_after_waveform_version env _] at i9
  exact i9

/-- afterLoad always leaves the version marker at the running version. -/
theorem afterLoad_versionKey (env : Env) (st0 : LadderState)
    (hinv : st0.store versionKey = some st0.version) :
    (afterLoad env st0).config versionKey = some env.runningVersion := by
  simp only [afterLoad]
  split
  · rename_i hc
    dsimp only
    rw [Store.set_other _ _ _ _ (by decide), hinv, hc]
  · dsimp only
    apply ladder_chain_versionKey
    dsimp only
    rw [Store.set_other _ _ _ _ (by decide)]
    exact hinv

/-- For every store with a nonempty version field, versionUpgrade leaves the
stored version marker at the running version (every run that is not a first
run reaches either the short-circuit or the terminal stamp). -/
theorem versionUpgrade_versionKey (env : Env) (s : Store)
    (hv : s.getString versionKey ≠ "") :
    (versionUpgrade env s).config versionKey = some env.runningVersion := by
  rw [versionUpgrade_nonempty env s hv]
  exact afterLoad_versionKey env _ (getString_eq_some s versionKey hv)

/-- afterLoad always leaves the vsync key at the renormalized mode of the
incoming store. -/
theorem afterLoad_vsyncKey (env : Env) (st0 : LadderState) :
    (afterLoad env st0).config vsyncKey =
      some (toString (upgradeDeprecatedVSyncModes
        (st0.store.getInt vsyncKey 0)).toInt) := by
  simp only [afterLoad]
  split
  · dsimp only
    exact Store.set_self _ _ _
  · dsimp only
    rw [step_clean_pres _ _ _ (by decide),
      step_waveform_pres _ _ _ (by decide) (by decide) (by decide) (by decide),
      step_framerate_pres _ _ (by decide),
      step_1_11_pres _ _ _ (by decide) (by decide),
      step_1_9_1_10_pres _ _ _ (by decide) (by decide),
      step_1_8_pres _ _ (by decide),
      step_1_8_beta_pres _ _ (by decide),
      step_1_7_pres _ _ (by decide)]
    dsimp only
    exact Store.set_self _ _ _

/-- A prefix test fails when the tested string disagrees with the known
concrete beginning of the subject. -/
theorem qStartsWith_false_of_shape (v p d : String) (r : List Char)
    (hd : v.data = d.data ++ r)
    (h : listIsPrefixOf (p.data.take d.data.length) d.data = false) :
    qStartsWith v p = false := by
  unfold qStartsWith
  rw [hd]
  exact listIsPrefixOf_append_false _ _ _ h

/-- Equal stores at a key read the same integer there. -/
theorem Store.getInt_congr (s1 s2 : Store) (k : CfgKey) (d : Int)
    (h : s1 k = s2 k) : s1.getInt k d = s2.getInt k d := by
  unfold Store.getInt
  rw [h]

theorem vnCompare_lt_head (a b : Nat) (h : a < b) (as bs : List Nat) :
    vnCompare (a :: as) (b :: bs) = Ordering.lt := by
  unfold vnCompare
  rw [if_pos h]

/-- A version string of the shape "1.xyz" parses with first segment 1. -/
theorem vnParse_one_dot (v : String) (rest : List Char)
    (hd : v.data = '1' :: '.' :: rest) :
    ∃ t, vnParse v = 1 :: t := by
  unfold vnParse
  rw [hd]
  exact ⟨_, rfl⟩

/-- Any version whose first parsed segment is 1 predates 2.4.0 and 2.6.0. -/
theorem vnLt_of_head_one (v : String) (t : List Nat) (hp : vnParse v = 1 :: t)
    (m : Nat) (ms : List Nat) (hm : 1 < m) :
    vnLt (vnParse v) (m :: ms) = true := by
  rw [hp]
  unfold vnLt
  rw [vnCompare_lt_head 1 m hm]
  rfl

theorem step_1_11_rescan_fired (env : Env) (st : LadderState)
    (h11 : qStartsWith st.version "1.11" = true) :
    (step_1_11 env st).rescanLibrary = env.rescanAnswer := by
  unfold step_1_11
  rw [if_pos h11]
  split <;> rfl

/-- Tail of the ladder from the 1.9/1.10 step on, when the copies fail:
the 1.9/1.10 step does not advance, the 1.11 step does not fire, and the
framerate step still resets the frame rate, which survives to the end. -/
theorem tail_from_19_frameRate (env : Env) (st : LadderState)
    (hg : (qStartsWith st.version "1.9" || qStartsWith st.version "1.10") = true)
    (h11 : qStartsWith st.version "1.11" = false)
    (t : List Nat) (hp : vnParse st.version = 1 :: t)
    (hc : env.copyMappingsOk = false) :
    (step_clean env (step_waveform env (step_framerate (step_1_11 env
        (step_1_9_1_10 env st))))).store frameRateKey = some "60" := by
  have h5 : step_1_9_1_10 env st =
      { st with store := st.store.set reanalyzeKey (boolVal env.reanalyzeAnswer) } := by
    unfold step_1_9_1_10
    rw [if_pos hg, hc]
    rfl
  rw [h5]
  rw [step_1_11_id env
    { st with store := st.store.set reanalyzeKey (boolVal env.reanalyzeAnswer) } h11]
  have hfr : step_framerate
      { st with store := st.store.set reanalyzeKey (boolVal env.reanalyzeAnswer) } =
      { st with store := (st.store.set reanalyzeKey
          (boolVal env.reanalyzeAnswer)).set frameRateKey "60" } := by
    unfold step_framerate
    rw [if_pos (vnLt_of_head_one _ t hp 2 [4, 0] (by norm_num))]
  rw [hfr,
    step_clean_pres _ _ _ (by decide),
    step_waveform_pres _ _ _ (by decide) (by decide) (by decide) (by decide)]
  dsimp only
  exact Store.set_self _ _ _

/-- Tail of the ladder from the 1.11 step on: the replay-gain boost is
rescaled to max(-6, old - 6) whether or not the collaborators succeeded,
and the rescaled value survives to the end of the ladder. -/
theorem tail_from_111_replayGain (env : Env) (st : LadderState)
    (h11 : qStartsWith st.version "1.11" = true) :
    (step_clean env (step_waveform env (step_framerate (step_1_11 env
        (step_1_9_1_10 env st))))).store replayGainKey =
      some (toString (max (-6) (st.store.getInt replayGainKey 6 - 6))) := by
  obtain ⟨r, hr⟩ := qStartsWith_shape st.version "1.11" h11
  rw [step_1_9_1_10_id env st
    (qStartsWith_false_of_shape _ "1.9" "1.11" r hr (by decide))
    (qStartsWith_false_of_shape _ "1.10" "1.11" r hr (by decide))]
  rw [step_clean_pres _ _ _ (by decide),
    step_waveform_pres _ _ _ (by decide) (by decide) (by decide) (by decide),
    step_framerate_pres _ _ (by decide)]
  unfold step_1_11
  rw [if_pos h11]
  split
  · dsimp only
    rw [Store.set_other _ _ _ _ (by decide)]
    exact Store.set_self _ _ _
  · dsimp only
    exact Store.set_self _ _ _

/-- Tail of the ladder from the 1.11 step on: the library-rescan prompt
answer is recorded in the rescan flag whether or not the collaborators
succeeded, and survives to the end of the ladder. -/
theorem tail_from_111_rescan (env : Env) (st : LadderState)
    (h11 : qStartsWith st.version "1.11" = true) :
    (step_clean env (step_waveform env (step_framerate (step_1_11 env
        (step_1_9_1_10 env st))))).rescanLibrary = env.rescanAnswer := by
  obtain ⟨r, hr⟩ := qStartsWith_shape st.version "1.11" h11
  rw [step_1_9_1_10_id env st
    (qStartsWith_false_of_shape _ "1.9" "1.11" r hr (by decide))
    (qStartsWith_false_of_shape _ "1.10" "1.11" r hr (by decide))]
  rw [step_clean_rescan, step_waveform_rescan, step_framerate_rescan]
  exact step_1_11_rescan_fired env st h11

/-- Full-chain version of tail_from_19_frameRate: from step_1_7 on. -/
theorem ladder_19_frameRate (env : Env) (st : LadderState)
    (hg : (qStartsWith st.version "1.9" || qStartsWith st.version "1.10") = true)
    (hc : env.copyMappingsOk = false) :
    (step_clean env (step_waveform env (step_framerate (step_1_11 env
        (step_1_9_1_10 env (step_1_8 (step_1_8_beta (step_1_7 st)))))))).store
      frameRateKey = some "60" := by
  have hg2 : qStartsWith st.version "1.9" = true ∨ qStartsWith st.version "1.10" = true := by
    simpa using hg
  rcases hg2 with h9 | h10
  · obtain ⟨r, hr⟩ := qStartsWith_shape st.version "1.9" h9
    rw [step_1_7_id st (qStartsWith_false_of_shape _ "1.7" "1.9" r hr (by decide)),
      step_1_8_beta_id st
        (qStartsWith_false_of_shape _ "1.8.0~beta1" "1.9" r hr (by decide))
        (qStartsWith_false_of_shape _ "1.8.0~beta2" "1.9" r hr (by decide))]
    by_cases hb : qStartsWith st.version "1.9.0beta1" = true
    · have h18 : step_1_8 st =
          { st with version := "1.9.0", store := st.store.set versionKey "1.9.0" } := by
        unfold step_1_8
        rw [hb, Bool.or_true]
        rfl
      rw [h18]
      exact tail_from_19_frameRate env _
        (show (qStartsWith "1.9.0" "1.9" || qStartsWith "1.9.0" "1.10") = true by decide)
        (show qStartsWith "1.9.0" "1.11" = false by decide) [9, 0]
        (show vnParse "1.9.0" = 1 :: [9, 0] by decide) hc
    · have hb2 : qStartsWith st.version "1.9.0beta1" = false :=
        Bool.eq_false_iff.mpr hb
      rw [step_1_8_id st
        (qStartsWith_false_of_shape _ "1.8" "1.9" r hr (by decide)) hb2]
      obtain ⟨t, hp⟩ := vnParse_one_dot st.version ('9' :: r) (by rw [hr]; rfl)
      exact tail_from_19_frameRate env st hg
        (qStartsWith_false_of_shape _ "1.11" "1.9" r hr (by decide)) t hp hc
  · obtain ⟨r, hr⟩ := qStartsWith_shape st.version "1.10" h10
    rw [step_1_7_id st (qStartsWith_false_of_shape _ "1.7" "1.10" r hr (by decide)),
      step_1_8_beta_id st
        (qStartsWith_false_of_shape _ "1.8.0~beta1" "1.10" r hr (by decide))
        (qStartsWith_false_of_shape _ "1.8.0~beta2" "1.10" r hr (by decide)),
      step_1_8_id st
        (qStartsWith_false_of_shape _ "1.8" "1.10" r hr (by decide))
        (qStartsWith_false_of_shape _ "1.9.0beta1" "1.10" r hr (by decide))]
    obtain ⟨t, hp⟩ := vnParse_one_dot st.version ('1' :: '0' :: r) (by rw [hr]; rfl)
    exact tail_from_19_frameRate env st hg
      (qStartsWith_false_of_shape _ "1.11" "1.10" r hr (by decide)) t hp hc

/-- Full-chain version of tail_from_111_replayGain: from step_1_7 on. -/
theorem ladder_111_replayGain (env : Env) (st : LadderState)
    (h11 : qStartsWith st.version "1.11" = true) :
    (step_clean env (step_waveform env (step_framerate (step_1_11 env
        (step_1_9_1_10 env (step_1_8 (step_1_8_beta (step_1_7 st)))))))).store
      replayGainKey =
      some (toString (max (-6) (st.store.getInt replayGainKey 6 - 6))) := by
  obtain ⟨r, hr⟩ := qStartsWith_shape st.version "1.11" h11
  rw [step_1_7_id st (qStartsWith_false_of_shape _ "1.7" "1.11" r hr (by decide)),
    step_1_8_beta_id st
      (qStartsWith_false_of_shape _ "1.8.0~beta1" "1.11" r hr (by decide))
      (qStartsWith_false_of_shape _ "1.8.0~beta2" "1.11" r hr (by decide)),
    step_1_8_id st
      (qStartsWith_false_of_shape _ "1.8" "1.11" r hr (by decide))
      (qStartsWith_false_of_shape _ "1.9.0beta1" "1.11" r hr (by decide))]
  exact tail_from_111_replayGain env st h11

/-- Full-chain version of tail_from_111_rescan: from step_1_7 on. -/
theorem ladder_111_rescan (env : Env) (st : LadderState)
    (h11 : qStartsWith st.version "1.11" = true) :
    (step_clean env (step_waveform env (step_framerate (step_1_11 env
        (step_1_9_1_10 env (step_1_8 (step_1_8_beta (step_1_7 st)))))))).rescanLibrary =
      env.rescanAnswer := by
  obtain ⟨r, hr⟩ := qStartsWith_shape st.version "1.11" h11
  rw [step_1_7_id st (qStartsWith_false_of_shape _ "1.7" "1.11" r hr (by decide)),
    step_1_8_beta_id st
      (qStartsWith_false_of_shape _ "1.8.0~beta1" "1.11" r hr (by decide))
      (qStartsWith_false_of_shape _ "1.8.0~beta2" "1.11" r hr (by decide)),
    step_1_8_id st
      (qStartsWith_false_of_shape _ "1.8" "1.11" r hr (by decide))
      (qStartsWith_false_of_shape _ "1.9.0beta1" "1.11" r hr (by decide))]
  exact tail_from_111_rescan env st h11

/-! ### Claims about the pure remappers -/

/-- Claim C3: with a non-AllShader raw backend, upgradeToAllShaders maps the
legacy RGB raw type codes 18, 23 and 12 (for every rawOptions value) to the
library's default waveform type - which is not the Stacked type (and the
current type enum has no RGB member for it to be) - with backend AllShader,
with options exactly SplitStereoSignal for raw type 18 and exactly
HighDetail for raw types 23 and 12. -/
theorem upgradeToAllShaders_legacy_rgb_codes (b o : Int)
    (hb : b ≠ WaveformWidgetBackend.AllShader) :
    upgradeToAllShaders 18 b o =
      (WaveformWidgetFactory.defaultType, WaveformWidgetBackend.AllShader,
        WaveformRendererSignalBase.SplitStereoSignal) ∧
    upgradeToAllShaders 23 b o =
      (WaveformWidgetFactory.defaultType, WaveformWidgetBackend.AllShader,
        WaveformRendererSignalBase.HighDetail) ∧
    upgradeToAllShaders 12 b o =
      (WaveformWidgetFactory.defaultType, WaveformWidgetBackend.AllShader,
        WaveformRendererSignalBase.HighDetail) ∧
    WaveformWidgetFactory.defaultType ≠ WaveformWidgetType.Stacked := by
  have hb2 : ¬ (WaveformWidgetBackend.AllShader = b) := fun h => hb h.symm
  refine ⟨?_, ?_, ?_, by decide⟩ <;>
    · simp only [upgradeToAllShaders, if_neg hb2]
      decide

/-- Witness for C3 at backend 0 (a legacy backend) and rawOptions 1234. -/
theorem upgradeToAllShaders_legacy_rgb_codes_witness :
    (0 : Int) ≠ WaveformWidgetBackend.AllShader ∧
    upgradeToAllShaders 18 0 1234 =
      (WaveformWidgetFactory.defaultType, WaveformWidgetBackend.AllShader,
        WaveformRendererSignalBase.SplitStereoSignal) :=
  ⟨by decide, (upgradeToAllShaders_legacy_rgb_codes 0 1234 (by decide)).1⟩

/-- Claim C4: with the AllShader raw backend, upgradeToAllShaders keeps the
backend, masks the raw options to the currently defined option bits, and
keeps the raw type exactly when it is one of the five allow-listed current
codes (Simple, Filtered, HSV, Stacked, Empty), falling back to the library
default type otherwise; in particular raw type 3 (a removed historical
code) with options 0xFFFF yields the Simple type (the library default),
backend AllShader, and only the currently defined bits 3 of 0xFFFF. -/
theorem upgradeToAllShaders_allshader_backend (t o : Int) :
    ((t = WaveformWidgetType.Simple ∨ t = WaveformWidgetType.Filtered ∨
        t = WaveformWidgetType.HSV ∨ t = WaveformWidgetType.Stacked ∨
        t = WaveformWidgetType.Empty) →
      upgradeToAllShaders t WaveformWidgetBackend.AllShader o =
        (t, WaveformWidgetBackend.AllShader,
          Int.land o WaveformRendererSignalBase.AllOptionsCombined)) ∧
    (¬(t = WaveformWidgetType.Simple ∨ t = WaveformWidgetType.Filtered ∨
        t = WaveformWidgetType.HSV ∨ t = WaveformWidgetType.Stacked ∨
        t = WaveformWidgetType.Empty) →
      upgradeToAllShaders t WaveformWidgetBackend.AllShader o =
        (WaveformWidgetFactory.defaultType, WaveformWidgetBackend.AllShader,
          Int.land o WaveformRendererSignalBase.AllOptionsCombined)) ∧
    upgradeToAllShaders 3 WaveformWidgetBackend.AllShader 0xFFFF =
      (WaveformWidgetType.Simple, WaveformWidgetBackend.AllShader, 3) := by
  refine ⟨?_, ?_, by decide⟩
  · intro h
    unfold upgradeToAllShaders
    rw [if_pos rfl, if_pos h]
  · intro h
    unfold upgradeToAllShaders
    rw [if_pos rfl, if_neg h]

/-- Witness for C4: the allow-listed code HSV is kept, the removed code 42
falls back to the default type. -/
theorem upgradeToAllShaders_allshader_backend_witness :
    upgradeToAllShaders WaveformWidgetType.HSV WaveformWidgetBackend.AllShader 7 =
      (WaveformWidgetType.HSV, WaveformWidgetBackend.AllShader,
        Int.land 7 WaveformRendererSignalBase.AllOptionsCombined) ∧
    upgradeToAllShaders 42 WaveformWidgetBackend.AllShader 7 =
      (WaveformWidgetFactory.defaultType, WaveformWidgetBackend.AllShader,
        Int.land 7 WaveformRendererSignalBase.AllOptionsCombined) :=
  ⟨(upgradeToAllShaders_allshader_backend WaveformWidgetType.HSV 7).1
      (Or.inr (Or.inr (Or.inl rfl))),
    (upgradeToAllShaders_allshader_backend 42 7).2.1 (by decide)⟩

/-- Claim C5: upgradeDeprecatedVSyncModes is a total function on Int (it is
a Lean function); the three deprecated synchronization codes, the Count
sentinel and every value outside the valid enum range map to Default, while
Free, Timer, PLL and Default map to themselves. -/
theorem upgradeDeprecatedVSyncModes_total_remap :
    (∀ c : Int, (c < 0 ∨ VSyncMode.Count.toInt < c) →
      upgradeDeprecatedVSyncModes c = VSyncMode.Default) ∧
    upgradeDeprecatedVSyncModes VSyncMode.MesaVblankMode1Deprecated.toInt =
      VSyncMode.Default ∧
    upgradeDeprecatedVSyncModes VSyncMode.SgiVideoSyncDeprecated.toInt =
      VSyncMode.Default ∧
    upgradeDeprecatedVSyncModes VSyncMode.OmlSyncControlDeprecated.toInt =
      VSyncMode.Default ∧
    upgradeDeprecatedVSyncModes VSyncMode.Count.toInt = VSyncMode.Default ∧
    upgradeDeprecatedVSyncModes VSyncMode.Free.toInt = VSyncMode.Free ∧
    upgradeDeprecatedVSyncModes VSyncMode.Timer.toInt = VSyncMode.Timer ∧
    upgradeDeprecatedVSyncModes VSyncMode.Pll.toInt = VSyncMode.Pll ∧
    upgradeDeprecatedVSyncModes VSyncMode.Default.toInt = VSyncMode.Default := by
  refine ⟨?_, by decide, by decide, by decide, by decide, by decide, by decide,
    by decide, by decide⟩
  intro c h
  simp only [VSyncMode.toInt] at h
  simp only [upgradeDeprecatedVSyncModes, VSyncMode.toInt]
  rw [if_pos (by omega)]
  split_ifs <;> first | rfl | omega

/-- Witness for C5 at the out-of-range raw values -1 and 100. -/
theorem upgradeDeprecatedVSyncModes_total_remap_witness :
    upgradeDeprecatedVSyncModes (-1) = VSyncMode.Default ∧
    upgradeDeprecatedVSyncModes 100 = VSyncMode.Default :=
  ⟨upgradeDeprecatedVSyncModes_total_remap.1 (-1) (Or.inl (by decide)),
    upgradeDeprecatedVSyncModes_total_remap.1 100 (Or.inr (by decide))⟩

/-! ### Claims about the migration ladder -/

/-- Claim C6: for every store whose version field is empty and for which no
legacy config file is found at any probed legacy location, versionUpgrade
stamps the version key to the running version string, sets the first-run
flag and returns immediately: the rescan flag stays false, no ladder step
executes, and no key other than the version is mutated. -/
theorem versionUpgrade_first_run (env : Env) (s : Store)
    (hv : s.getString versionKey = "") (hl : env.legacyConfig = none) :
    (versionUpgrade env s).config versionKey = some env.runningVersion ∧
    (versionUpgrade env s).firstRun = true ∧
    (versionUpgrade env s).rescanLibrary = false ∧
    ∀ k, k ≠ versionKey → (versionUpgrade env s).config k = s k := by
  have he : versionUpgrade env s =
      { config := s.set versionKey env.runningVersion
        firstRun := true
        rescanLibrary := false } := by
    show (if s.getString versionKey = "" then _ else _) = _
    rw [if_pos hv, hl]
  refine ⟨?_, ?_, ?_, ?_⟩
  · rw [he]
    dsimp only
    exact Store.set_self _ _ _
  · rw [he]
  · rw [he]
  · intro k hk
    rw [he]
    dsimp only
    exact Store.set_other _ _ _ _ hk

/-- Witness for C6: the empty store under envA. -/
theorem versionUpgrade_first_run_witness :
    (versionUpgrade envA emptyStore).config versionKey = some "2.6.0" ∧
    (versionUpgrade envA emptyStore).firstRun = true ∧
    (versionUpgrade envA emptyStore).config vsyncKey = emptyStore vsyncKey :=
  ⟨(versionUpgrade_first_run envA emptyStore rfl rfl).1,
    (versionUpgrade_first_run envA emptyStore rfl rfl).2.1,
    (versionUpgrade_first_run envA emptyStore rfl rfl).2.2.2 vsyncKey (by decide)⟩

/-- Claim C7: when a step's file copies fail the step's version advance is
skipped but the run is not aborted.  For a store whose version starts with
"1.9" or "1.10" under an environment where the mapping-file copies fail:
the 1.9/1.10 step leaves the version unchanged, and that version is not
"1.11.0" (the step advances to "1.11.0" exactly when every copy succeeds,
stated generally in the third conjunct); the remaining ladder steps are
still evaluated - the frame-rate step still fires and the terminal stamp
still leaves the version marker at the running version. -/
theorem versionUpgrade_copy_failure (env : Env) (s : Store)
    (hg : (qStartsWith (s.getString versionKey) "1.9" ||
        qStartsWith (s.getString versionKey) "1.10") = true)
    (hc : env.copyMappingsOk = false)
    (hne : s.getString versionKey ≠ env.runningVersion) :
    (step_1_9_1_10 env ⟨s.getString versionKey, s, false⟩).version =
      s.getString versionKey ∧
    s.getString versionKey ≠ "1.11.0" ∧
    (∀ (env2 : Env) (st : LadderState), (qStartsWith st.version "1.9" ||
        qStartsWith st.version "1.10") = true → env2.copyMappingsOk = true →
      (step_1_9_1_10 env2 st).version = "1.11.0") ∧
    (versionUpgrade env s).config frameRateKey = some "60" ∧
    (versionUpgrade env s).config versionKey = some env.runningVersion := by
  have hvne : s.getString versionKey ≠ "" := by
    intro he
    have hg2 : qStartsWith (s.getString versionKey) "1.9" = true ∨
        qStartsWith (s.getString versionKey) "1.10" = true := by simpa using hg
    rcases hg2 with h9 | h10
    · rw [he] at h9; exact absurd h9 (by decide)
    · rw [he] at h10; exact absurd h10 (by decide)
  refine ⟨?_, ?_, ?_, ?_, versionUpgrade_versionKey env s hvne⟩
  · unfold step_1_9_1_10
    rw [if_pos hg, hc]
    rfl
  · intro he
    rw [he] at hg
    exact absurd hg (by decide)
  · intro env2 st hgate hcopy
    unfold step_1_9_1_10
    rw [if_pos hgate, hcopy]
    rfl
  · rw [versionUpgrade_nonempty env s hvne]
    simp only [afterLoad]
    split
    · rename_i hcon
      exact absurd hcon hne
    · dsimp only
      exact ladder_19_frameRate env _ hg hc

/-- Witness for C7: a store at 1.9.2 under failing copies. -/
theorem versionUpgrade_copy_failure_witness :
    (step_1_9_1_10 envCopyFail ⟨store19.getString versionKey, store19, false⟩).version =
      "1.9.2" ∧
    (versionUpgrade envCopyFail store19).config frameRateKey = some "60" ∧
    (versionUpgrade envCopyFail store19).config versionKey = some "2.6.0" :=
  ⟨(versionUpgrade_copy_failure envCopyFail store19 (by decide) rfl (by decide)).1,
    (versionUpgrade_copy_failure envCopyFail store19 (by decide) rfl (by decide)).2.2.2.1,
    (versionUpgrade_copy_failure envCopyFail store19 (by decide) rfl (by decide)).2.2.2.2⟩

/-- Claim C1: for every store whose version starts with "1.11" (and is not
already the running version, which would short-circuit): when the database
connection pools, the schema initialization succeeds and the directory
registration returns Ok, the 1.11 step advances the stored version to
"1.12.0"; when the collaborators do not report success the step leaves the
version unchanged, which is never "1.12.0"; and in both cases the full run
sets InitialReplayGainBoost to max(-6, previous - 6). -/
theorem versionUpgrade_1_11_step (env : Env) (s : Store)
    (h11 : qStartsWith (s.getString versionKey) "1.11" = true)
    (hne : s.getString versionKey ≠ env.runningVersion) :
    ((env.pooling && env.initSchemaOk && env.addDirOk) = true →
      (step_1_11 env ⟨s.getString versionKey, s, false⟩).version = "1.12.0") ∧
    ((env.pooling && env.initSchemaOk && env.addDirOk) = false →
      (step_1_11 env ⟨s.getString versionKey, s, false⟩).version =
        s.getString versionKey ∧
      s.getString versionKey ≠ "1.12.0") ∧
    (versionUpgrade env s).config replayGainKey =
      some (toString (max (-6) (s.getInt replayGainKey 6 - 6))) := by
  have hvne : s.getString versionKey ≠ "" := by
    intro he
    rw [he] at h11
    exact absurd h11 (by decide)
  refine ⟨?_, ?_, ?_⟩
  · intro hs
    unfold step_1_11
    rw [if_pos h11, hs]
    rfl
  · intro hs
    refine ⟨?_, ?_⟩
    · unfold step_1_11
      rw [if_pos h11, hs]
      rfl
    · intro he
      rw [he] at h11
      exact absurd h11 (by decide)
  · rw [versionUpgrade_nonempty env s hvne]
    simp only [afterLoad]
    split
    · rename_i hcon
      exact absurd hcon hne
    · dsimp only
      rw [ladder_111_replayGain env _ h11]
      rw [Store.getInt_congr (s.set vsyncKey _) s replayGainKey 6
        (Store.set_other _ _ _ _ (by decide))]

/-- Witness for C1: a store at 1.11.0 with boost 2 under envA; the full run
lands the boost at -4. -/
theorem versionUpgrade_1_11_step_witness :
    (step_1_11 envA ⟨store111.getString versionKey, store111, false⟩).version =
      "1.12.0" ∧
    (versionUpgrade envA store111).config replayGainKey = some "-4" :=
  ⟨(versionUpgrade_1_11_step envA store111 (by decide) (by decide)).1 rfl,
    ((versionUpgrade_1_11_step envA store111 (by decide) (by decide)).2.2).trans
      (by decide)⟩

/-- Claim C10: when the 1.11 step's collaborators fail, the step is not
atomic: the library-rescan prompt answer is still recorded (visible on the
full run's rescan flag), InitialReplayGainBoost is still rescaled to
max(-6, old - 6), while the version stays on its 1.11 value; consequently
running the same step again subtracts 6 from the already-rescaled value
once more, re-clamped at -6 (witnessed concretely: boost 2 becomes -4,
then -6). -/
theorem versionUpgrade_1_11_failure_not_atomic (env : Env) (s : Store)
    (h11 : qStartsWith (s.getString versionKey) "1.11" = true)
    (hne : s.getString versionKey ≠ env.runningVersion)
    (hf : (env.pooling && env.initSchemaOk && env.addDirOk) = false) :
    (versionUpgrade env s).rescanLibrary = env.rescanAnswer ∧
    (step_1_11 env ⟨s.getString versionKey, s, false⟩).store replayGainKey =
      some (toString (max (-6) (s.getInt replayGainKey 6 - 6))) ∧
    (step_1_11 env ⟨s.getString versionKey, s, false⟩).version =
      s.getString versionKey ∧
    (step_1_11 envFail (step_1_11 envFail
        ⟨"1.11.0", store111, false⟩)).store replayGainKey = some "-6" := by
  have hvne : s.getString versionKey ≠ "" := by
    intro he
    rw [he] at h11
    exact absurd h11 (by decide)
  refine ⟨?_, ?_, ?_, by decide⟩
  · rw [versionUpgrade_nonempty env s hvne]
    simp only [afterLoad]
    split
    · rename_i hcon
      exact absurd hcon hne
    · dsimp only
      exact ladder_111_rescan env _ h11
  · unfold step_1_11
    rw [if_pos h11, hf, if_neg (show ¬(false = true) by decide)]
    dsimp only
    exact Store.set_self _ _ _
  · unfold step_1_11
    rw [if_pos h11, hf]
    rfl

/-- Witness for C10: store at 1.11.0 under the failing environment; the
rescan answer yes is recorded on the full run. -/
theorem versionUpgrade_1_11_failure_not_atomic_witness :
    (versionUpgrade envFail store111).rescanLibrary = true ∧
    (step_1_11 envFail ⟨store111.getString versionKey, store111, false⟩).store
      replayGainKey = some "-4" :=
  ⟨(versionUpgrade_1_11_failure_not_atomic envFail store111 (by decide) (by decide)
      rfl).1,
    ((versionUpgrade_1_11_failure_not_atomic envFail store111 (by decide) (by decide)
      rfl).2.1).trans (by decide)⟩

/-- The VSync remap output round-trips through its config serialization. -/
theorem vsync_toInt_roundtrip (m : VSyncMode) :
    qStringToInt (toString m.toInt) = m.toInt := by
  cases m <;> decide

/-- upgradeDeprecatedVSyncModes only ever returns one of the four surviving
modes. -/
theorem upgradeDeprecatedVSyncModes_range (c : Int) :
    upgradeDeprecatedVSyncModes c = VSyncMode.Default ∨
    upgradeDeprecatedVSyncModes c = VSyncMode.Free ∨
    upgradeDeprecatedVSyncModes c = VSyncMode.Timer ∨
    upgradeDeprecatedVSyncModes c = VSyncMode.Pll := by
  unfold upgradeDeprecatedVSyncModes
  split_ifs <;> simp

/-- The VSync remap is a retraction: applying it to its own output's raw
value changes nothing. -/
theorem upgradeDeprecatedVSyncModes_fix (c : Int) :
    upgradeDeprecatedVSyncModes ((upgradeDeprecatedVSyncModes c).toInt) =
      upgradeDeprecatedVSyncModes c := by
  rcases upgradeDeprecatedVSyncModes_range c with h | h | h | h <;> rw [h] <;> decide

/-- Claim C2: the waveform modernization step's gate, as written in the
source, is exactly the spec's condition (parsed stored version numerically
below 2.6.0, or the stored version starts with "2.6.0-" while the running
version is not exactly "2.6.0-beta"); under a false gate the step is the
identity, under a true gate it rewrites the waveform settings through
upgradeToAllShaders and advances to 2.6.0; in particular the store at
"2.6.0-beta" under a running build "2.6.0-beta" keeps its raw waveform
type 12 untouched, while under running version "2.6.0" the same store has
it rewritten to the library default type. -/
theorem waveform_step_trigger :
    (∀ running v, waveformUpgradeCond running v = waveformUpgradeCondSpec running v) ∧
    (∀ (env : Env) (st : LadderState),
      waveformUpgradeCondSpec env.runningVersion st.version = false →
        step_waveform env st = st) ∧
    (∀ (env : Env) (st : LadderState),
      waveformUpgradeCondSpec env.runningVersion st.version = true →
        (step_waveform env st).version = "2.6.0" ∧
        (step_waveform env st).store waveformTypeKey =
          some (toString (upgradeToAllShaders (st.store.getInt waveformTypeKey 0)
            (st.store.getInt hardwareAccelKey 0)
            (st.store.getInt waveformOptionsKey 0)).1)) ∧
    (versionUpgrade envBeta storeBeta).config waveformTypeKey = some "12" ∧
    (versionUpgrade envA storeBeta).config waveformTypeKey =
      some (toString WaveformWidgetFactory.defaultType) := by
  have hgate : ∀ running v,
      waveformUpgradeCond running v = waveformUpgradeCondSpec running v := by
    intro running v
    unfold waveformUpgradeCond waveformUpgradeCondSpec
    rw [Bool.and_comm]
  refine ⟨hgate, ?_, ?_, by decide, by decide⟩
  · intro env st h
    have hc : waveformUpgradeCond env.runningVersion st.version = false := by
      rw [hgate]; exact h
    unfold step_waveform
    rw [hc]
    rfl
  · intro env st h
    have hc : waveformUpgradeCond env.runningVersion st.version = true := by
      rw [hgate]; exact h
    refine ⟨?_, ?_⟩
    · unfold step_waveform
      rw [if_pos hc]
    · unfold step_waveform
      rw [if_pos hc]
      dsimp only
      rw [Store.set_other _ _ _ _ (by decide), Store.set_other _ _ _ _ (by decide),
        Store.set_other _ _ _ _ (by decide)]
      exact Store.set_self _ _ _

/-- Witness for C2 at the two example states: the beta store under the beta
build is untouched by the step; under the 2.6.0 build the step fires. -/
theorem waveform_step_trigger_witness :
    step_waveform envBeta ⟨"2.6.0-beta", storeBeta, false⟩ =
      ⟨"2.6.0-beta", storeBeta, false⟩ ∧
    (step_waveform envA ⟨"2.6.0-beta", storeBeta, false⟩).version = "2.6.0" :=
  ⟨waveform_step_trigger.2.1 envBeta ⟨"2.6.0-beta", storeBeta, false⟩ (by decide),
    (waveform_step_trigger.2.2.1 envA ⟨"2.6.0-beta", storeBeta, false⟩ (by decide)).1⟩

/-- Counterexample to claim C9 as stated: on a first-run store (empty
version) the first run returns before the unconditional vsync
renormalization, while the second run performs it, so the second run's
store gains a [Waveform] VSync entry the first run's store does not have -
the two stores are not identical. -/
theorem versionUpgrade_not_idempotent_cex :
    (versionUpgrade envA emptyStore).config vsyncKey = none ∧
    (versionUpgrade envA (versionUpgrade envA emptyStore).config).config vsyncKey =
      some "0" := by decide

/-- Claim C9 amended: for every store whose version field is nonempty (a
non-first-run store) under a nonempty running version, running
versionUpgrade twice produces a store identical to running it once: the
first run ends at the running version, so the second run rewrites the
VSync key with the very same normalized value and short-circuits. -/
theorem versionUpgrade_idempotent_nonempty (env : Env) (s : Store)
    (hv : s.getString versionKey ≠ "") (hr : env.runningVersion ≠ "") :
    ∀ k, (versionUpgrade env (versionUpgrade env s).config).config k =
      (versionUpgrade env s).config k := by
  intro k
  have hk1 : (versionUpgrade env s).config versionKey = some env.runningVersion :=
    versionUpgrade_versionKey env s hv
  have hvs : (versionUpgrade env s).config vsyncKey =
      some (toString (upgradeDeprecatedVSyncModes (s.getInt vsyncKey 0)).toInt) := by
    rw [versionUpgrade_nonempty env s hv]
    exact afterLoad_vsyncKey env _
  have hg2 : (versionUpgrade env s).config.getString versionKey = env.runningVersion := by
    unfold Store.getString
    rw [hk1]
    rfl
  have hv2 : (versionUpgrade env s).config.getString versionKey ≠ "" := by
    rw [hg2]; exact hr
  rw [versionUpgrade_nonempty env _ hv2]
  simp only [afterLoad]
  rw [if_pos hg2]
  dsimp only
  have hgi : (versionUpgrade env s).config.getInt vsyncKey 0 =
      qStringToInt (toString (upgradeDeprecatedVSyncModes (s.getInt vsyncKey 0)).toInt) := by
    unfold Store.getInt
    rw [hvs]
    rfl
  have hw : toString (upgradeDeprecatedVSyncModes
        ((versionUpgrade env s).config.getInt vsyncKey 0)).toInt =
      toString (upgradeDeprecatedVSyncModes (s.getInt vsyncKey 0)).toInt := by
    rw [hgi, vsync_toInt_roundtrip, upgradeDeprecatedVSyncModes_fix]
  by_cases hkv : k = vsyncKey
  · rw [Store.set, hkv, if_pos rfl, hw, hvs]
  · exact Store.set_other _ _ _ _ hkv

/-- Witness for the amended C9 at the 1.11.0 store. -/
theorem versionUpgrade_idempotent_nonempty_witness :
    (versionUpgrade envA (versionUpgrade envA store111).config).config replayGainKey =
      (versionUpgrade envA store111).config replayGainKey :=
  versionUpgrade_idempotent_nonempty envA store111 (by decide) (by decide) replayGainKey

/-- Counterexample to claim C8 as stated: the ladder advances the version
marker only in the in-memory store.  For the store at 1.7.0 the 1.7 step
completes (advancing to 1.8.0 in memory, and the run ends at the running
version), yet the on-disk image still holds version 1.7.0 - not the
completed step's target - because versionUpgrade never calls save. -/
theorem version_persistence_cex :
    (step_1_7 ⟨"1.7.0", store17, false⟩).version = "1.8.0" ∧
    (versionUpgrade envA store17).config versionKey = some "2.6.0" ∧
    diskImageDuringVersionUpgrade store17 versionKey = some "1.7.0" := by
  refine ⟨by decide, by decide, by decide⟩

/-- Claim C8 amended: ladder steps advance the version marker in the
in-memory store only; versionUpgrade performs no persistence, so the
on-disk image is unchanged at every point of the run (durability comes
from the caller saving the returned store after migration; an interruption
mid-ladder leaves the disk at the pre-migration state and the whole ladder
re-runs on the next start). -/
theorem version_persistence_amended :
    (∀ disk0 : Store, diskImageDuringVersionUpgrade disk0 = disk0) ∧
    (versionUpgrade envA store17).config versionKey = some "2.6.0" ∧
    diskImageDuringVersionUpgrade store17 versionKey = store17 versionKey :=
  ⟨fun _ => rfl, by decide, rfl⟩

end Mixxx
